import Mathlib

/-!
Verification of the GameBoost AI desktop application's host/bridge and
turbo-engine logic, shallowly embedded from the TypeScript/JavaScript
sources (`public/electron/main.js`, `public/electron/preload.js`,
`src/engine/turbo.ts`, `src/engine/presets.ts`,
`src/engine/optimizer/windows.ts`,
`temp-project-restore/src/engine/turbo.ts`).
-/

/-! ## String utilities

JavaScript `String.prototype.includes` is substring containment; we model
it over character lists. -/

/-- `preMatch needle hay` is true when `needle` occurs at the start of `hay`. -/
def preMatch : List Char → List Char → Bool
  | [], _ => true
  | _ :: _, [] => false
  | n :: ns, h :: hs => n == h && preMatch ns hs

/-- `subMatch needle hay` is true when `needle` occurs contiguously anywhere in `hay`. -/
def subMatch (needle : List Char) : List Char → Bool
  | [] => preMatch needle []
  | h :: hs => preMatch needle (h :: hs) || subMatch needle hs

/-- Model of JavaScript `hay.includes(needle)`. -/
def strIncludes (hay needle : String) : Bool :=
  subMatch needle.toList hay.toList

/-- Model of JavaScript `s.toLowerCase()` (character-wise lowering; the
commands and paths involved are ASCII). -/
def strToLower (s : String) : String :=
  String.mk (s.toList.map Char.toLower)

/-! ## Host process: `run-powershell` IPC handler (`public/electron/main.js`) -/

/-- Shape of the result resolved by the host handler and by
`runPowerShellCommand`: `{stdout, stderr, code, duration}`. -/
structure PSResult where
  stdout : String
  stderr : String
  code : Int
  duration : Int
deriving DecidableEq, Repr

/-- The `dangerousCommands` denylist of `main.js` (lines 242-253). -/
def dangerousCommands : List String :=
  ["format", "del ", "rm ", "rmdir", "shutdown", "restart", "reboot",
   "taskkill /f", "net user", "net localgroup"]

/-- Possible behaviours of the spawned PowerShell child process, an oracle
for the event callbacks wired up in `runPowerShellCommand`: the process
exits (possibly with a `null` code), errors out, or is killed by the
timeout timer. Collected stdout/stderr text is carried along. -/
inductive ProcOutcome where
  | exited (stdout stderr : String) (code : Option Int)
  | errored (stdout stderr msg : String)
  | timedOut (stdout stderr : String)
deriving DecidableEq, Repr

/-- A JavaScript number as it can actually cross the bridge: a finite
value (the integers suffice for every bound in this program) or `NaN`.
`typeof` is `'number'` for both, and every order comparison involving
`NaN` is false. -/
inductive JsNum where
  | int (n : Int)
  | nan
deriving DecidableEq, Repr

/-- Template-string rendering of a JavaScript number. -/
def jsNumStr : JsNum → String
  | .int n => toString n
  | .nan => "NaN"

/-- `runPowerShellCommand` of `main.js` (lines 73-140).  `elapsedMs` stands
for the wall-clock duration `Date.now() - startTime` observed at `finish`.
On exit the code is `code || 0`, on a spawn error the message is appended
to stderr with code 1, on timeout the timeout note is appended with
code 124.  On non-Windows hosts a fixed simulated result is resolved. -/
def runPowerShellCommand (isWindows : Bool) (proc : ProcOutcome)
    (timeoutMs : JsNum) (elapsedMs : Int) : PSResult :=
  if !isWindows then
    { stdout := "Comando simulado (não-Windows)", stderr := "", code := 0, duration := 100 }
  else
    match proc with
    | .exited out err c => { stdout := out, stderr := err, code := c.getD 0, duration := elapsedMs }
    | .errored out err msg => { stdout := out, stderr := err ++ msg, code := 1, duration := elapsedMs }
    | .timedOut out err =>
        { stdout := out, stderr := err ++ ("Timeout após " ++ jsNumStr timeoutMs ++ "ms"),
          code := 124, duration := elapsedMs }

/-- Outcome of the `run-powershell` IPC handler: either it rejects the
command up front (resolving an error-shaped result, never spawning a
shell), or it spawns the shell and resolves the collected result. -/
inductive HandlerOutcome where
  | rejected (r : PSResult)
  | executed (command : String) (timeoutMs : JsNum) (r : PSResult)
deriving DecidableEq, Repr

/-- The `run-powershell` handler of `setupIPC` in `main.js` (lines 234-271):
length validation, then the denylist check on the lower-cased command,
then `runPowerShellCommand`.  A thrown validation error is caught and
converted to `{stdout: '', stderr: message, code: 1, duration: 0}`. -/
def runPowershellHandler (isWindows : Bool) (proc : ProcOutcome) (elapsedMs : Int)
    (command : String) (timeout : JsNum) : HandlerOutcome :=
  if command.length > 1000 then
    .rejected { stdout := "", stderr := "Comando inválido", code := 1, duration := 0 }
  else if dangerousCommands.any (fun d => strIncludes (strToLower command) d) then
    .rejected { stdout := "", stderr := "Comando não permitido por segurança", code := 1, duration := 0 }
  else
    .executed command timeout (runPowerShellCommand isWindows proc timeout elapsedMs)

/-- C1: For every command string containing (case-insensitively) one of the
blacklisted substrings, the `run-powershell` handler resolves an error
result with empty stdout, a non-empty stderr message, code 1 and
duration 0, and never spawns a shell interpreter (the outcome is
`rejected`, independent of the process oracle). -/
theorem runPowershell_blacklist_rejects
    (command : String) (isWindows : Bool) (proc : ProcOutcome) (elapsedMs : Int)
    (timeout : JsNum)
    (h : dangerousCommands.any (fun d => strIncludes (strToLower command) d) = true) :
    ∃ msg, msg ≠ "" ∧
      runPowershellHandler isWindows proc elapsedMs command timeout
        = .rejected { stdout := "", stderr := msg, code := 1, duration := 0 } := by
  unfold runPowershellHandler
  by_cases hlen : command.length > 1000
  · exact ⟨"Comando inválido", by simp, by simp [hlen]⟩
  · exact ⟨"Comando não permitido por segurança", by simp, by simp [hlen, h]⟩

/-- Witness for C1 at the concrete command `"format c:"`. -/
theorem runPowershell_blacklist_rejects_witness :
    ∃ msg, msg ≠ "" ∧
      runPowershellHandler true (.exited "" "" none) 0 "format c:" (.int 30000)
        = .rejected { stdout := "", stderr := msg, code := 1, duration := 0 } :=
  runPowershell_blacklist_rejects "format c:" true (.exited "" "" none) 0 (.int 30000) (by decide)

/-! ## Preload bridge (`public/electron/preload.js`)

The renderer-facing `runPS` API.  IPC arguments and responses are untyped
JavaScript values; we model the fragment relevant to validation and
coercion. -/

/-- Untyped JavaScript values crossing the bridge.  `num` is a finite
number (the integers suffice for every bound in this program); `nan` is
the number `NaN`, for which `typeof` is `'number'`, every order
comparison is false, and truthiness is false. -/
inductive JSVal where
  | str (s : String)
  | num (n : Int)
  | nan
  | jsBool (b : Bool)
  | jsNull
  | jsUndef
deriving DecidableEq, Repr

/-- JavaScript truthiness of a value. -/
def jsTruthy : JSVal → Bool
  | .str s => !(s == "")
  | .num n => !(n == 0)
  | .nan => false
  | .jsBool b => b
  | .jsNull => false
  | .jsUndef => false

/-- JavaScript `v || dflt`. -/
def jsOr (v dflt : JSVal) : JSVal :=
  if jsTruthy v then v else dflt

/-- An IPC response record with untyped fields, as the renderer sees it. -/
structure RawResponse where
  stdout : JSVal
  stderr : JSVal
  code : JSVal
  duration : JSVal
deriving DecidableEq, Repr

/-- View a typed host result as the raw IPC response. -/
def toRaw (r : PSResult) : RawResponse :=
  { stdout := .str r.stdout, stderr := .str r.stderr,
    code := .num r.code, duration := .num r.duration }

/-- `validateCommand` of `preload.js` (lines 9-19): throws for non-strings
and for strings of length 0 or above 1000; the thrown message is the
`Except.error` payload. -/
def validateCommand : JSVal → Except String String
  | .str s =>
      if s.length == 0 || s.length > 1000 then
        .error "Comando deve ter entre 1 e 1000 caracteres"
      else
        .ok s
  | _ => .error "Comando deve ser uma string"

/-- Timeout sanitization in `runPS` (`preload.js` line 45):
`typeof timeout !== 'number' || timeout < 1000 || timeout > 120000`
replaces the timeout by the safe default 30000.  `typeof NaN` is
`'number'` and both comparisons are false for `NaN`, so `NaN` passes
through unchanged. -/
def sanitizeTimeout : JSVal → JsNum
  | .num n => if n < 1000 || n > 120000 then .int 30000 else .int n
  | .nan => .nan
  | _ => .int 30000

/-- The structure-guaranteeing coercion `runPS` applies to the IPC
response (`preload.js` lines 52-57). -/
def coercePS (r : RawResponse) : RawResponse :=
  { stdout := jsOr r.stdout (.str ""),
    stderr := jsOr r.stderr (.str ""),
    code := match r.code with | .num n => .num n | .nan => .nan | _ => .num 1,
    duration := match r.duration with | .num n => .num n | .nan => .nan | _ => .num 0 }

/-- Result of one `runPS` call: what (if anything) was sent over the
`run-powershell` IPC channel, and the object the promise resolves to. -/
structure RunPSCall where
  ipcSent : Option (String × JsNum)
  result : RawResponse
deriving DecidableEq, Repr

/-- `runPS` of `preload.js` (lines 41-67): validate the command (a thrown
validation error is caught and resolved as
`{stdout: '', stderr: message, code: 1, duration: 0}` without touching
IPC), sanitize the timeout, invoke the host, and coerce the response. -/
def runPS (command timeout : JSVal) (host : String → JsNum → RawResponse) : RunPSCall :=
  match validateCommand command with
  | .error msg => { ipcSent := none, result := ⟨.str "", .str msg, .num 1, .num 0⟩ }
  | .ok cmd =>
      let t := sanitizeTimeout timeout
      { ipcSent := some (cmd, t), result := coercePS (host cmd t) }

/-- The actual host endpoint of the `run-powershell` channel: the handler
of `main.js`, with its typed result sent back as a raw response. -/
def mainHost (isWindows : Bool) (proc : ProcOutcome) (elapsedMs : Int) :
    String → JsNum → RawResponse :=
  fun command timeout =>
    toRaw (match runPowershellHandler isWindows proc elapsedMs command timeout with
           | .rejected r => r
           | .executed _ _ r => r)

/-- C2: invalid inputs (non-strings, empty or over-long strings) are
resolved locally by `runPS` as `{stdout: '', stderr: message, code: 1,
duration: 0}` with a non-empty message and no IPC round trip; valid
commands, run against the real host handler, resolve to a record whose
stdout and stderr are strings and whose code and duration are numbers. -/
theorem runPS_validation (command timeout : JSVal)
    (isWindows : Bool) (proc : ProcOutcome) (elapsedMs : Int) :
    ((∀ s, command ≠ .str s) ∨
       (∃ s, command = .str s ∧ (s.length = 0 ∨ s.length > 1000)) →
      (runPS command timeout (mainHost isWindows proc elapsedMs)).ipcSent = none ∧
      ∃ msg, msg ≠ "" ∧
        (runPS command timeout (mainHost isWindows proc elapsedMs)).result
          = ⟨.str "", .str msg, .num 1, .num 0⟩) ∧
    (∀ s, command = .str s → 1 ≤ s.length → s.length ≤ 1000 →
      ∃ o e c d,
        (runPS command timeout (mainHost isWindows proc elapsedMs)).result
          = ⟨.str o, .str e, .num c, .num d⟩) := by
  constructor
  · intro hbad
    have herr : ∃ msg, msg ≠ "" ∧ validateCommand command = .error msg := by
      rcases hbad with hns | ⟨s, hs, hlen⟩
      · cases command with
        | str s => exact absurd rfl (hns s)
        | num n => exact ⟨_, by simp, rfl⟩
        | nan => exact ⟨_, by simp, rfl⟩
        | jsBool b => exact ⟨_, by simp, rfl⟩
        | jsNull => exact ⟨_, by simp, rfl⟩
        | jsUndef => exact ⟨_, by simp, rfl⟩
      · subst hs
        refine ⟨"Comando deve ter entre 1 e 1000 caracteres", by simp, ?_⟩
        simp only [validateCommand]
        have : (s.length == 0 || decide (s.length > 1000)) = true := by
          rcases hlen with h | h <;> simp [h]
        simp [this]
    rcases herr with ⟨msg, hne, heq⟩
    refine ⟨?_, msg, hne, ?_⟩ <;> simp [runPS, heq]
  · intro s hs h1 h2
    subst hs
    have hok : validateCommand (.str s) = .ok s := by
      simp only [validateCommand]
      have : (s.length == 0 || decide (s.length > 1000)) = false := by
        simp; omega
      simp [this]
    simp only [runPS, hok, mainHost]
    set r := (match runPowershellHandler isWindows proc elapsedMs s (sanitizeTimeout timeout) with
              | .rejected r => r
              | .executed _ _ r => r) with hr
    refine ⟨if r.stdout == "" then "" else r.stdout,
            if r.stderr == "" then "" else r.stderr, r.code, r.duration, ?_⟩
    simp only [coercePS, toRaw, jsOr, jsTruthy]
    by_cases ho : r.stdout == "" <;> by_cases he : r.stderr == "" <;>
      simp [ho, he]

/-- Witness for C2 at the valid command `"dir"`. -/
theorem runPS_validation_witness :
    ∃ o e c d,
      (runPS (.str "dir") (.num 5000) (mainHost true (.exited "hello" "" (some 0)) 7)).result
        = ⟨.str o, .str e, .num c, .num d⟩ :=
  (runPS_validation (.str "dir") (.num 5000) true (.exited "hello" "" (some 0)) 7).2
    "dir" rfl (by decide) (by decide)

/-- C10 counterexample: at the concrete timeout `NaN` — for which
`typeof` is `'number'` and both range comparisons are false — `runPS`
invokes the host with `NaN` itself, which is neither the default 30000
nor any value in `[1000, 120000]`. -/
theorem runPS_timeout_nan_counterexample :
    (runPS (.str "dir") .nan (mainHost true (.exited "" "" none) 0)).ipcSent
      = some ("dir", .nan) ∧
    (∀ n : Int, JsNum.nan ≠ .int n) := by
  constructor
  · rfl
  · intro n h
    exact JsNum.noConfusion h

/-- C10 (amended): whenever `runPS` invokes the `run-powershell` channel, a
non-numeric timeout or a finite numeric timeout below 1000 or above 120000
is replaced by the default 30000; an in-range finite numeric timeout is
passed through unchanged; `NaN` — a number for which both range
comparisons are false — is passed through as `NaN`; and every finite
timeout actually sent lies in `[1000, 120000]`. -/
theorem runPS_timeout_range (command timeout : JSVal)
    (host : String → JsNum → RawResponse) (c : String) (t : JsNum)
    (h : (runPS command timeout host).ipcSent = some (c, t)) :
    ((∀ n, timeout ≠ .num n) ∧ timeout ≠ .nan → t = .int 30000) ∧
    (∀ n, timeout = .num n → (n < 1000 ∨ n > 120000) → t = .int 30000) ∧
    (∀ n, timeout = .num n → 1000 ≤ n → n ≤ 120000 → t = .int n) ∧
    (timeout = .nan → t = .nan) ∧
    (∀ n, t = .int n → 1000 ≤ n ∧ n ≤ 120000) := by
  have ht : t = sanitizeTimeout timeout := by
    unfold runPS at h
    cases hv : validateCommand command with
    | error m => rw [hv] at h; simp at h
    | ok cmd => rw [hv] at h; simp at h; exact h.2.symm
  subst ht
  refine ⟨?_, ?_, ?_, ?_, ?_⟩
  · intro ⟨hns, hnn⟩
    cases timeout with
    | num n => exact absurd rfl (hns n)
    | nan => exact absurd rfl hnn
    | str s => rfl
    | jsBool b => rfl
    | jsNull => rfl
    | jsUndef => rfl
  · intro n hn hout
    subst hn
    simp only [sanitizeTimeout]
    have hc : (decide (n < 1000) || decide (n > 120000)) = true := by
      rcases hout with hlt | hgt
      · simp [hlt]
      · simp [hgt]
    simp [hc]
  · intro n hn h1 h2
    subst hn
    simp only [sanitizeTimeout]
    have hc : (decide (n < 1000) || decide (n > 120000)) = false := by
      simp
      omega
    simp [hc]
  · intro hn
    subst hn
    rfl
  · intro n hn
    cases timeout with
    | num m =>
        simp only [sanitizeTimeout] at hn
        split at hn
        · injection hn with hn
          omega
        · rename_i hcond
          simp at hcond
          injection hn with hn
          omega
    | nan => exact JsNum.noConfusion hn
    | str s => injection hn with hn; omega
    | jsBool b => injection hn with hn; omega
    | jsNull => injection hn with hn; omega
    | jsUndef => injection hn with hn; omega

/-- Witness for the amended C10: an out-of-range finite timeout of 500
reaches IPC as the default 30000. -/
theorem runPS_timeout_range_witness :
    ((∀ n, JSVal.num 500 ≠ .num n) ∧ JSVal.num 500 ≠ .nan → JsNum.int 30000 = .int 30000) ∧
    (∀ n, JSVal.num 500 = .num n → (n < 1000 ∨ n > 120000) → JsNum.int 30000 = .int 30000) ∧
    (∀ n, JSVal.num 500 = .num n → 1000 ≤ n → n ≤ 120000 → JsNum.int 30000 = .int n) ∧
    (JSVal.num 500 = .nan → JsNum.int 30000 = .nan) ∧
    (∀ n, JsNum.int 30000 = .int n → 1000 ≤ n ∧ n ≤ 120000) :=
  runPS_timeout_range (.str "dir") (.num 500) (mainHost true (.exited "" "" none) 0)
    "dir" (.int 30000) (by decide)

/-! ## Preset table (`src/engine/presets.ts`) -/

/-- The `PresetConfig` interface. -/
structure PresetConfig where
  cpuPriority : String
  ramCleanup : String
  backgroundApps : String
  fanSpeed : Int
  powerMode : String
  gpuBoost : String
  notes : Option String := none
deriving DecidableEq, Repr

/-- The static `presets` table (lines 16-81), as a key lookup. -/
def presets : String → Option PresetConfig
  | "esports" => some ⟨"realtime", "aggressive", "kill-aggressive", 90, "performance", "max", none⟩
  | "battleroyale" => some ⟨"high", "balanced", "smart", 75, "performance", "high", none⟩
  | "aaa" => some ⟨"normal", "light", "minimal", 65, "balanced", "quality", none⟩
  | "battlefield6" => some ⟨"realtime-multicore", "aggressive", "kill-aggressive", 100, "performance", "max-vram-buffer", none⟩
  | "streamgame" => some ⟨"split", "balanced", "smart", 80, "performance", "balanced", none⟩
  | "silent" => some ⟨"low", "minimal", "none", 30, "eco", "low", none⟩
  | "arcriders" => some ⟨"high", "balanced", "smart", 85, "performance", "balanced", none⟩
  | "warzone" => some ⟨"realtime", "aggressive", "kill-aggressive", 95, "performance", "max", none⟩
  | _ => none

/-- The keys of the `presets` table, in declaration order. -/
def presetKeys : List String :=
  ["esports", "battleroyale", "aaa", "battlefield6", "streamgame", "silent",
   "arcriders", "warzone"]

/-- The property names every plain JavaScript object inherits from
`Object.prototype`.  The tables in `presets.ts` are object literals, so a
bracket lookup that misses every own key still finds these, and each of
their values (functions, or `Object.prototype` itself for `__proto__`) is
truthy. -/
def objectProtoProps : List String :=
  ["constructor", "hasOwnProperty", "isPrototypeOf", "propertyIsEnumerable",
   "toLocaleString", "toString", "valueOf", "__proto__",
   "__defineGetter__", "__defineSetter__", "__lookupGetter__", "__lookupSetter__"]

/-- Result of the JavaScript property access `presets[key]`: an own entry
of the table literal, a truthy value inherited from `Object.prototype`, or
`undefined`. -/
inductive PresetLookup where
  | own (p : PresetConfig)
  | proto
  | missing
deriving DecidableEq, Repr

/-- The JavaScript lookup `presets[key]` (`turbo.ts` line 176): own keys
first, then the prototype chain. -/
def presetsGet (k : String) : PresetLookup :=
  match presets k with
  | some p => .own p
  | none => if objectProtoProps.contains k then .proto else .missing

/-- Truthiness of a `presets[key]` access — what the `if (!preset) throw`
guard at `turbo.ts` lines 177-179 actually tests. -/
def PresetLookup.truthy : PresetLookup → Bool
  | .missing => false
  | _ => true

/-- The `presetDisplayNames` table (lines 129-138), own entries only (its
prototype-chain hits are modelled where the lookup happens). -/
def presetDisplayNames : String → Option String
  | "esports" => some "E-Sports"
  | "battleroyale" => some "Battle Royale"
  | "aaa" => some "AAA Games"
  | "battlefield6" => some "Battlefield 6"
  | "streamgame" => some "Stream + Game"
  | "silent" => some "Silencioso"
  | "arcriders" => some "Arc Raiders"
  | "warzone" => some "Warzone"
  | _ => none

/-- The character class `\s` of a JavaScript regular expression:
whitespace code points (tab through carriage return, space, and the
Unicode space separators plus NBSP, LS, PS and BOM). -/
def isJsSpace (c : Char) : Bool :=
  [9, 10, 11, 12, 13, 32, 160, 0x1680, 0x2000, 0x2001, 0x2002, 0x2003, 0x2004,
   0x2005, 0x2006, 0x2007, 0x2008, 0x2009, 0x200a, 0x2028, 0x2029, 0x202f,
   0x205f, 0x3000, 0xfeff].contains c.toNat

/-- The input normalization at the top of `normalizeProfileName`
(`presets.ts` line 89): lower-case, then delete every character matched by
`[\s\+\-\_]`. -/
def normPresetInput (s : String) : String :=
  String.mk ((strToLower s).toList.filter
    (fun c => !(isJsSpace c || c == '+' || c == '-' || c == '_')))

/-- What `map[m] || null` evaluates to in `normalizeProfileName`
(`presets.ts` line 109): an own entry of the alias map (a preset key), a
truthy value inherited from `Object.prototype` (which survives the `||`),
or `null`. -/
inductive AliasLookup where
  | key (k : String)
  | protoJunk
  | nullResult
deriving DecidableEq, Repr

/-- The alias-map access `map[m] || null` of `normalizeProfileName`
(`presets.ts` lines 90-109): the object-literal lookup is a chain of
equality tests against its own keys, in declaration order (duplicate keys
carry the same value, so order is immaterial), falling through to the
inherited `Object.prototype` properties, then to `undefined` — which the
`|| null` turns into `null`. -/
def profileAliasLookup (m : String) : AliasLookup :=
  if m == "esports" then .key "esports"
  else if m == "battleroyale" then .key "battleroyale"
  else if m == "aaa" then .key "aaa"
  else if m == "aaagames" then .key "aaa"
  else if m == "battlefield6" then .key "battlefield6"
  else if m == "bf6" then .key "battlefield6"
  else if m == "streamgame" then .key "streamgame"
  else if m == "streamjogo" then .key "streamgame"
  else if m == "stream+game" then .key "streamgame"
  else if m == "silent" then .key "silent"
  else if m == "silencioso" then .key "silent"
  else if m == "arcriders" then .key "arcriders"
  else if m == "arcraiders" then .key "arcriders"
  else if m == "arider" then .key "arcriders"
  else if m == "warzone" then .key "warzone"
  else if objectProtoProps.contains m then .protoJunk
  else .nullResult

/-- `normalizeProfileName` (lines 88-110): normalize the input, then
evaluate `map[m] || null`. -/
def normalizeProfileName (name : String) : AliasLookup :=
  profileAliasLookup (normPresetInput name)

/-! ## Fan speed (`src/engine/optimizer/windows.ts`) -/

/-- Result of `setFanSpeed`. -/
structure FanResult where
  ok : Bool
  percent : Int
deriving DecidableEq, Repr

/-- `setFanSpeed` (`optimizer/windows.ts` lines 447-454): clamp the
requested percentage into `[0, 100]` and report success. -/
def setFanSpeed (percent : Int) : FanResult :=
  let p1 := if percent < 0 then 0 else percent
  let p2 := if p1 > 100 then 100 else p1
  { ok := true, percent := p2 }

/-- C8: every entry of the presets table has `fanSpeed` in `[0, 100]`, and
`setFanSpeed` always succeeds with the input clamped into `[0, 100]`. -/
theorem fanSpeed_bounded :
    (∀ k p, presets k = some p → 0 ≤ p.fanSpeed ∧ p.fanSpeed ≤ 100) ∧
    (∀ n : Int, (setFanSpeed n).ok = true ∧
      (setFanSpeed n).percent = max 0 (min 100 n) ∧
      0 ≤ (setFanSpeed n).percent ∧ (setFanSpeed n).percent ≤ 100) := by
  constructor
  · intro k p h
    unfold presets at h
    split at h <;>
      first
        | (injection h with h; subst h; decide)
        | exact Option.noConfusion h
  · intro n
    have hp : (setFanSpeed n).percent
        = if (if n < 0 then 0 else n) > 100 then 100
          else (if n < 0 then 0 else n) := rfl
    refine ⟨rfl, ?_, ?_, ?_⟩ <;> rw [hp] <;>
      by_cases h1 : n < 0 <;> by_cases h2 : n > 100 <;>
        simp [h1, h2] <;> omega

/-- Witness for C8 at the out-of-range request 250 and the `esports` entry. -/
theorem fanSpeed_bounded_witness :
    (0 ≤ (⟨"realtime", "aggressive", "kill-aggressive", 90, "performance", "max", none⟩ : PresetConfig).fanSpeed ∧
      (⟨"realtime", "aggressive", "kill-aggressive", 90, "performance", "max", none⟩ : PresetConfig).fanSpeed ≤ 100) ∧
    ((setFanSpeed 250).ok = true ∧ (setFanSpeed 250).percent = max 0 (min 100 250) ∧
      0 ≤ (setFanSpeed 250).percent ∧ (setFanSpeed 250).percent ≤ 100) :=
  ⟨fanSpeed_bounded.1 "esports" _ (by rfl), fanSpeed_bounded.2 250⟩

theorem char_toNat_ofNat {n : Nat} (h : n.isValidChar) :
    (Char.ofNat n).toNat = n := by
  unfold Char.ofNat
  rw [dif_pos h]
  rfl

theorem toLower_toNat_not_upper (c : Char) :
    ¬(65 ≤ (Char.toLower c).toNat ∧ (Char.toLower c).toNat ≤ 90) := by
  simp only [Char.toLower]
  split
  · rename_i hcond
    rw [char_toNat_ofNat (Or.inl (by omega))]
    omega
  · rename_i hcond
    exact hcond

theorem normPresetInput_chars (s : String) :
    ∀ c ∈ (normPresetInput s).toList,
      (¬(65 ≤ c.toNat ∧ c.toNat ≤ 90)) ∧ (c == '_') = false := by
  intro c hc
  have hc2 : c ∈ (strToLower s).toList.filter
      (fun c => !(isJsSpace c || c == '+' || c == '-' || c == '_')) := hc
  have hmem := List.mem_filter.mp hc2
  constructor
  · have hmap : c ∈ s.toList.map Char.toLower := hmem.1
    rcases List.mem_map.mp hmap with ⟨c0, _, hc0⟩
    rw [← hc0]
    exact toLower_toNat_not_upper c0
  · have hp := hmem.2
    cases hbe : c == '_' with
    | false => rfl
    | true =>
        exfalso
        rw [hbe] at hp
        simp at hp

theorem profileAliasLookup_protoJunk (m : String)
    (h : profileAliasLookup m = .protoJunk) :
    objectProtoProps.contains m = true := by
  unfold profileAliasLookup at h
  by_cases d1 : (m == "esports") = true
  · rw [if_pos d1] at h; exact AliasLookup.noConfusion h
  rw [if_neg d1] at h
  by_cases d2 : (m == "battleroyale") = true
  · rw [if_pos d2] at h; exact AliasLookup.noConfusion h
  rw [if_neg d2] at h
  by_cases d3 : (m == "aaa") = true
  · rw [if_pos d3] at h; exact AliasLookup.noConfusion h
  rw [if_neg d3] at h
  by_cases d4 : (m == "aaagames") = true
  · rw [if_pos d4] at h; exact AliasLookup.noConfusion h
  rw [if_neg d4] at h
  by_cases d5 : (m == "battlefield6") = true
  · rw [if_pos d5] at h; exact AliasLookup.noConfusion h
  rw [if_neg d5] at h
  by_cases d6 : (m == "bf6") = true
  · rw [if_pos d6] at h; exact AliasLookup.noConfusion h
  rw [if_neg d6] at h
  by_cases d7 : (m == "streamgame") = true
  · rw [if_pos d7] at h; exact AliasLookup.noConfusion h
  rw [if_neg d7] at h
  by_cases d8 : (m == "streamjogo") = true
  · rw [if_pos d8] at h; exact AliasLookup.noConfusion h
  rw [if_neg d8] at h
  by_cases d9 : (m == "stream+game") = true
  · rw [if_pos d9] at h; exact AliasLookup.noConfusion h
  rw [if_neg d9] at h
  by_cases d10 : (m == "silent") = true
  · rw [if_pos d10] at h; exact AliasLookup.noConfusion h
  rw [if_neg d10] at h
  by_cases d11 : (m == "silencioso") = true
  · rw [if_pos d11] at h; exact AliasLookup.noConfusion h
  rw [if_neg d11] at h
  by_cases d12 : (m == "arcriders") = true
  · rw [if_pos d12] at h; exact AliasLookup.noConfusion h
  rw [if_neg d12] at h
  by_cases d13 : (m == "arcraiders") = true
  · rw [if_pos d13] at h; exact AliasLookup.noConfusion h
  rw [if_neg d13] at h
  by_cases d14 : (m == "arider") = true
  · rw [if_pos d14] at h; exact AliasLookup.noConfusion h
  rw [if_neg d14] at h
  by_cases d15 : (m == "warzone") = true
  · rw [if_pos d15] at h; exact AliasLookup.noConfusion h
  rw [if_neg d15] at h
  by_cases d16 : objectProtoProps.contains m = true
  · exact d16
  · rw [if_neg d16] at h; exact AliasLookup.noConfusion h

theorem protoJunk_only_constructor (s : String)
    (h : normalizeProfileName s = .protoJunk) :
    normPresetInput s = "constructor" := by
  have hchars := normPresetInput_chars s
  unfold normalizeProfileName at h
  have hcont := profileAliasLookup_protoJunk _ h
  have hmem : normPresetInput s ∈ objectProtoProps :=
    List.mem_of_elem_eq_true hcont
  generalize hg : normPresetInput s = m at hchars hmem ⊢
  fin_cases hmem
  · rfl
  · exact absurd ⟨(by decide), (by decide)⟩ ((hchars 'O' (by decide)).1)
  · exact absurd ⟨(by decide), (by decide)⟩ ((hchars 'P' (by decide)).1)
  · exact absurd ⟨(by decide), (by decide)⟩ ((hchars 'I' (by decide)).1)
  · exact absurd ⟨(by decide), (by decide)⟩ ((hchars 'L' (by decide)).1)
  · exact absurd ⟨(by decide), (by decide)⟩ ((hchars 'S' (by decide)).1)
  · exact absurd ⟨(by decide), (by decide)⟩ ((hchars 'O' (by decide)).1)
  · exact absurd ((hchars '_' (by decide)).2) (by decide)
  · exact absurd ((hchars '_' (by decide)).2) (by decide)
  · exact absurd ((hchars '_' (by decide)).2) (by decide)
  · exact absurd ((hchars '_' (by decide)).2) (by decide)
  · exact absurd ((hchars '_' (by decide)).2) (by decide)

/-- C9 counterexample: at the concrete input `"constructor"`, the
normalized form hits the inherited `Object.prototype` constructor, so
`normalizeProfileName` returns a truthy value that is neither `null` nor
any preset key. -/
theorem normalizeProfileName_counterexample :
    normalizeProfileName "constructor" = .protoJunk ∧
    (∀ k, AliasLookup.protoJunk ≠ AliasLookup.key k) ∧
    AliasLookup.protoJunk ≠ AliasLookup.nullResult := by
  refine ⟨by decide, ?_, ?_⟩
  · intro k hk
    exact AliasLookup.noConfusion hk
  · intro hk
    exact AliasLookup.noConfusion hk

set_option maxHeartbeats 2000000 in
/-- C9 (amended): the name-normalization helper round-trips with the
preset table — every preset key normalizes to itself and every display
name normalizes to its key — and every `key` result of
`normalizeProfileName` is a key of the presets table; but an input whose
normalized form is `"constructor"` (the one `Object.prototype` property
name reachable after lower-casing and stripping `[\s+\-_]`) returns the
inherited truthy non-key value instead of `null`, and those are the only
inputs that do. -/
theorem normalizeProfileName_roundtrip :
    (presetKeys.all (fun k => normalizeProfileName k == .key k) = true) ∧
    (presetKeys.all (fun k =>
        (match presetDisplayNames k with
         | some d => normalizeProfileName d
         | none => .nullResult) == AliasLookup.key k) = true) ∧
    (∀ s k, normalizeProfileName s = .key k → (presets k).isSome = true) ∧
    (∀ s, normalizeProfileName s = .protoJunk → normPresetInput s = "constructor") := by
  refine ⟨by decide, by decide, ?_, protoJunk_only_constructor⟩
  intro s k h
  unfold normalizeProfileName at h
  generalize normPresetInput s = m at h
  have key : (match profileAliasLookup m with
              | .key k => (presets k).isSome = true
              | _ => True) := by
    unfold profileAliasLookup
    by_cases c1 : (m == "esports") = true
    · rw [if_pos c1]; exact (by decide : (presets "esports").isSome = true)
    rw [if_neg c1]
    by_cases c2 : (m == "battleroyale") = true
    · rw [if_pos c2]; exact (by decide : (presets "battleroyale").isSome = true)
    rw [if_neg c2]
    by_cases c3 : (m == "aaa") = true
    · rw [if_pos c3]; exact (by decide : (presets "aaa").isSome = true)
    rw [if_neg c3]
    by_cases c4 : (m == "aaagames") = true
    · rw [if_pos c4]; exact (by decide : (presets "aaa").isSome = true)
    rw [if_neg c4]
    by_cases c5 : (m == "battlefield6") = true
    · rw [if_pos c5]; exact (by decide : (presets "battlefield6").isSome = true)
    rw [if_neg c5]
    by_cases c6 : (m == "bf6") = true
    · rw [if_pos c6]; exact (by decide : (presets "battlefield6").isSome = true)
    rw [if_neg c6]
    by_cases c7 : (m == "streamgame") = true
    · rw [if_pos c7]; exact (by decide : (presets "streamgame").isSome = true)
    rw [if_neg c7]
    by_cases c8 : (m == "streamjogo") = true
    · rw [if_pos c8]; exact (by decide : (presets "streamgame").isSome = true)
    rw [if_neg c8]
    by_cases c9 : (m == "stream+game") = true
    · rw [if_pos c9]; exact (by decide : (presets "streamgame").isSome = true)
    rw [if_neg c9]
    by_cases c10 : (m == "silent") = true
    · rw [if_pos c10]; exact (by decide : (presets "silent").isSome = true)
    rw [if_neg c10]
    by_cases c11 : (m == "silencioso") = true
    · rw [if_pos c11]; exact (by decide : (presets "silent").isSome = true)
    rw [if_neg c11]
    by_cases c12 : (m == "arcriders") = true
    · rw [if_pos c12]; exact (by decide : (presets "arcriders").isSome = true)
    rw [if_neg c12]
    by_cases c13 : (m == "arcraiders") = true
    · rw [if_pos c13]; exact (by decide : (presets "arcriders").isSome = true)
    rw [if_neg c13]
    by_cases c14 : (m == "arider") = true
    · rw [if_pos c14]; exact (by decide : (presets "arcriders").isSome = true)
    rw [if_neg c14]
    by_cases c15 : (m == "warzone") = true
    · rw [if_pos c15]; exact (by decide : (presets "warzone").isSome = true)
    rw [if_neg c15]
    by_cases c16 : objectProtoProps.contains m = true
    · rw [if_pos c16]; trivial
    · rw [if_neg c16]; trivial
  rw [h] at key
  exact key

/-- Witness for C9: the legacy alias `"BF6"` normalizes to the live preset
key `"battlefield6"`. -/
theorem normalizeProfileName_roundtrip_witness :
    (presets "battlefield6").isSome = true :=
  normalizeProfileName_roundtrip.2.2.1 "BF6" "battlefield6" (by decide)

/-! ## Turbo persistence record (`src/engine/turbo.ts`)

`runTurbo` stores `JSON.stringify({lastTurboAt, lastTurboProfile})` under
the browser-local-storage key `gb.turbo`, and `getLastTurboData` reads it
back with `JSON.parse`.  We model the JSON round trip concretely: the
encoder produces exactly the `JSON.stringify` output for this record (the
profile keys involved contain no characters needing escapes), and the
decoder accepts that shape, returning `none` elsewhere (a sound model of
`JSON.parse` failure on the strings this program can meet). -/

/-- The persisted turbo record. -/
structure TurboData where
  lastTurboAt : Nat
  lastTurboProfile : String
deriving DecidableEq, Repr

/-- The decimal digit character for `d < 10`. -/
def digitCh : Nat → Char
  | 0 => '0' | 1 => '1' | 2 => '2' | 3 => '3' | 4 => '4'
  | 5 => '5' | 6 => '6' | 7 => '7' | 8 => '8' | _ => '9'

/-- Numeric value of a digit character. -/
def digitVal (c : Char) : Nat := c.toNat - 48

/-- Decimal digit test. -/
def isDigitCh (c : Char) : Bool :=
  decide (48 ≤ c.toNat) && decide (c.toNat ≤ 57)

/-- Decimal digits of a natural number, most significant first (the
`JSON.stringify` rendering of an integer-valued timestamp). -/
def natDigits (n : Nat) : List Char :=
  if h : n < 10 then [digitCh n]
  else natDigits (n / 10) ++ [digitCh (n % 10)]
decreasing_by exact Nat.div_lt_self (by omega) (by omega)

/-- Value of a digit string, most significant first. -/
def digitsToNat (l : List Char) : Nat :=
  l.foldl (fun a c => a * 10 + digitVal c) 0

theorem digitVal_digitCh {d : Nat} (h : d < 10) : digitVal (digitCh d) = d := by
  interval_cases d <;> rfl

theorem isDigitCh_digitCh {d : Nat} (h : d < 10) : isDigitCh (digitCh d) = true := by
  interval_cases d <;> rfl

theorem natDigits_all_digits (n : Nat) : ∀ c ∈ natDigits n, isDigitCh c = true := by
  induction n using Nat.strong_induction_on with
  | _ n ih =>
    rw [natDigits]
    split
    · rename_i h
      intro c hc
      simp only [List.mem_singleton] at hc
      subst hc
      exact isDigitCh_digitCh h
    · rename_i h
      intro c hc
      rw [List.mem_append] at hc
      rcases hc with hc | hc
      · exact ih (n / 10) (Nat.div_lt_self (by omega) (by omega)) c hc
      · simp only [List.mem_singleton] at hc
        subst hc
        exact isDigitCh_digitCh (Nat.mod_lt _ (by omega))

theorem natDigits_ne_nil (n : Nat) : natDigits n ≠ [] := by
  rw [natDigits]
  split <;> simp

theorem digitsToNat_append_single (l : List Char) (c : Char) :
    digitsToNat (l ++ [c]) = digitsToNat l * 10 + digitVal c := by
  simp [digitsToNat, List.foldl_append]

theorem digitsToNat_natDigits (n : Nat) : digitsToNat (natDigits n) = n := by
  induction n using Nat.strong_induction_on with
  | _ n ih =>
    rw [natDigits]
    split
    · rename_i h
      have : digitsToNat [digitCh n] = digitVal (digitCh n) := by
        simp [digitsToNat]
      rw [this, digitVal_digitCh h]
    · rename_i h
      rw [digitsToNat_append_single,
          ih (n / 10) (Nat.div_lt_self (by omega) (by omega)),
          digitVal_digitCh (Nat.mod_lt _ (by omega))]
      omega

/-- Drop an expected literal from the front of the input. -/
def dropLit : List Char → List Char → Option (List Char)
  | [], l => some l
  | _ :: _, [] => none
  | p :: ps, c :: cs => if p == c then dropLit ps cs else none

theorem dropLit_append (l r : List Char) : dropLit l (l ++ r) = some r := by
  induction l with
  | nil => rfl
  | cons a as ih => simp [dropLit, ih]

/-- Split off the longest leading run of digits. -/
def takeDigits : List Char → List Char × List Char
  | [] => ([], [])
  | c :: cs =>
      if isDigitCh c then
        ((takeDigits cs).1.cons c, (takeDigits cs).2)
      else ([], c :: cs)

theorem takeDigits_append (l r : List Char)
    (hl : ∀ c ∈ l, isDigitCh c = true)
    (hr : ∀ c cs, r = c :: cs → isDigitCh c = false) :
    takeDigits (l ++ r) = (l, r) := by
  induction l with
  | nil =>
      cases r with
      | nil => rfl
      | cons c cs => simp [takeDigits, hr c cs rfl]
  | cons a as ih =>
      have ha : isDigitCh a = true := hl a (List.mem_cons_self a as)
      have ih2 := ih (fun c hc => hl c (List.mem_cons_of_mem a hc))
      simp [takeDigits, ha, ih2]

/-- Consume characters up to (and including) the closing quote. -/
def takeStr : List Char → Option (List Char × List Char)
  | [] => none
  | c :: cs =>
      if c == '"' then some ([], cs)
      else
        match takeStr cs with
        | none => none
        | some (s, rest) => some (c :: s, rest)

theorem takeStr_append (l r : List Char) (hl : ∀ c ∈ l, (c == '"') = false) :
    takeStr (l ++ ('"' :: r)) = some (l, r) := by
  induction l with
  | nil => simp [takeStr]
  | cons a as ih =>
      have ha := hl a (List.mem_cons_self a as)
      have ih2 := ih (fun c hc => hl c (List.mem_cons_of_mem a hc))
      simp [takeStr, ha, ih2]

/-- Literal prefix of the stored JSON record. -/
def tdPre : String := "\x7b\"lastTurboAt\":"

/-- Literal between the timestamp and the profile string. -/
def tdMid : String := ",\"lastTurboProfile\":\""

/-- Literal closing the stored JSON record. -/
def tdSuf : String := "\"\x7d"

/-- Characters of `JSON.stringify({lastTurboAt, lastTurboProfile})` for a
profile string without characters needing escapes. -/
def encodeTurboDataL (d : TurboData) : List Char :=
  tdPre.toList ++ natDigits d.lastTurboAt ++ tdMid.toList
    ++ d.lastTurboProfile.toList ++ tdSuf.toList

/-- The stored JSON string. -/
def encodeTurboData (d : TurboData) : String :=
  String.mk (encodeTurboDataL d)

/-- Decoder for the stored record shape; `none` on anything else. -/
def parseTurboData (s : String) : Option TurboData :=
  match dropLit tdPre.toList s.toList with
  | none => none
  | some r1 =>
      if (takeDigits r1).1.isEmpty then none
      else
        match dropLit tdMid.toList (takeDigits r1).2 with
        | none => none
        | some r3 =>
            match takeStr r3 with
            | none => none
            | some (prof, r4) =>
                if r4 == ['\x7d'] then
                  some ⟨digitsToNat (takeDigits r1).1, String.mk prof⟩
                else none

theorem parse_encode (n : Nat) (s : String)
    (hq : ∀ c ∈ s.toList, (c == '"') = false) :
    parseTurboData (encodeTurboData ⟨n, s⟩) = some ⟨n, s⟩ := by
  have htl : (encodeTurboData ⟨n, s⟩).toList
      = tdPre.toList ++ (natDigits n ++ (tdMid.toList ++ (s.toList ++ tdSuf.toList))) := by
    simp [encodeTurboData, encodeTurboDataL]
  have h1 : dropLit tdPre.toList (encodeTurboData ⟨n, s⟩).toList
      = some (natDigits n ++ (tdMid.toList ++ (s.toList ++ tdSuf.toList))) := by
    rw [htl, dropLit_append]
  have h2 : takeDigits (natDigits n ++ (tdMid.toList ++ (s.toList ++ tdSuf.toList)))
      = (natDigits n, tdMid.toList ++ (s.toList ++ tdSuf.toList)) := by
    apply takeDigits_append
    · exact natDigits_all_digits n
    · intro c cs hc
      have : tdMid.toList ++ (s.toList ++ tdSuf.toList) = ',' :: (tdMid.toList.tail ++ (s.toList ++ tdSuf.toList)) := rfl
      rw [this] at hc
      injection hc with hc1 _
      subst hc1
      rfl
  have h3 : dropLit tdMid.toList (tdMid.toList ++ (s.toList ++ tdSuf.toList))
      = some (s.toList ++ tdSuf.toList) := dropLit_append _ _
  have h4 : takeStr (s.toList ++ tdSuf.toList) = some (s.toList, ['\x7d']) := by
    have : s.toList ++ tdSuf.toList = s.toList ++ ('"' :: ['\x7d']) := rfl
    rw [this, takeStr_append _ _ hq]
  unfold parseTurboData
  rw [h1]
  simp only [h2, h3, h4]
  have hne : (natDigits n).isEmpty = false := by
    cases hh : natDigits n with
    | nil => exact absurd hh (natDigits_ne_nil n)
    | cons a as => rfl
  simp [hne, digitsToNat_natDigits]

/-! ## Turbo engine (`src/engine/turbo.ts`) -/

/-- The display name `presetDisplayNames[profileKey] || profileIdentifier`
evaluates to (`turbo.ts` line 182): a string, or — when `profileKey` names
an inherited `Object.prototype` property — the truthy non-string inherited
value. -/
inductive ProfileName where
  | str (s : String)
  | protoJunk
deriving DecidableEq, Repr

/-- The display-name lookup with its `||` fallback. -/
def displayNameFor (profileKey fallback : String) : ProfileName :=
  match presetDisplayNames profileKey with
  | some d => .str d
  | none =>
      if objectProtoProps.contains profileKey then .protoJunk
      else .str fallback

/-- Result record of `runTurbo`. -/
structure TurboResult where
  steps : Nat
  errors : Nat
  tempGuard : Bool
  executionTime : Nat
  profile : ProfileName
deriving DecidableEq, Repr

/-- The fake telemetry boost activated at the end of a turbo run. -/
structure TelemetryBoost where
  fpsBoost : Int
  ramReduction : Int
  tempReduction : Int
  duration : Int
deriving DecidableEq, Repr

/-- `calculateFpsBoost` (`turbo.ts` lines 65-85): a `switch` on the profile
key, here as the equivalent chain of equality tests. -/
def calculateFpsBoost (profileKey : String) : Int :=
  if profileKey == "esports" || profileKey == "battleroyale" then 5
  else if profileKey == "aaa" then 3
  else if profileKey == "battlefield6" then 6
  else if profileKey == "streamgame" then 4
  else if profileKey == "silent" then 0
  else if profileKey == "arcriders" then 4
  else if profileKey == "warzone" then 5
  else 4

/-- `activateTelemetryBoost` (`turbo.ts` lines 113-130).  `r1` and `r2` are
the two `Math.random()` draws (each in `[0, 1)`):
`ramReduction = Math.floor(r1 * 5) + 8` and, when `tempGuard` is set,
`tempReduction = Math.floor(r2 * 3) + 2` (otherwise 0). -/
def activateTelemetryBoost (profileKey : String) (tempGuard : Bool)
    (r1 r2 : ℚ) : TelemetryBoost :=
  { fpsBoost := calculateFpsBoost profileKey,
    ramReduction := ⌊r1 * 5⌋ + 8,
    tempReduction := if tempGuard then ⌊r2 * 3⌋ + 2 else 0,
    duration := 60000 }

/-- The key normalization at the top of `runTurbo` (`turbo.ts` line 173):
`profileIdentifier.toLowerCase().replace(/[\s\-]+/g, '')`. -/
def normTurboKey (s : String) : String :=
  String.mk ((strToLower s).toList.filter (fun c => !(isJsSpace c || c == '-')))

/-- The step/error tally loop of `runTurbo` (lines 212-224): every
operation bumps `steps`, and `errors` is bumped when the operation
resolved `false` (or threw — `step` converts a throw into `false`). -/
def turboLoop : Nat × Nat → List Bool → Nat × Nat
  | acc, [] => acc
  | (s, e), ok :: rest => turboLoop (s + 1, if ok then e else e + 1) rest

/-- Number of failed operations in a run. -/
def countFalse (l : List Bool) : Nat := (l.filter (fun b => !b)).length

theorem turboLoop_spec (l : List Bool) (s e : Nat) :
    turboLoop (s, e) l = (s + l.length, e + countFalse l) := by
  induction l generalizing s e with
  | nil => simp [turboLoop, countFalse]
  | cons b rest ih =>
      cases b <;> simp [turboLoop, ih, countFalse, Prod.mk.injEq] <;> omega

theorem countFalse_le_length (l : List Bool) : countFalse l ≤ l.length :=
  List.length_filter_le _ l

/-- Everything observable about one `runTurbo` call: the outcomes of the
operations it executed (in order), the local-storage writes it performed,
the telemetry boost it activated, and its return value or thrown error. -/
structure TurboRun where
  executedOps : List Bool
  storageWrites : List (String × String)
  telemetry : Option TelemetryBoost
  result : Except String TurboResult
deriving Repr

/-- The body of `runTurbo` past the `if (!preset) throw` guard
(`turbo.ts` lines 181-247): the guard only tests truthiness, so this body
runs identically whether the lookup hit an own preset entry or an
inherited `Object.prototype` property (whose fields are merely
interpolated into step labels, which we do not observe). -/
def turboBody (profileIdentifier : String) (outcomes : Fin 7 → Bool)
    (execTime saveTime : Nat) (r1 r2 : ℚ) : TurboRun :=
  let key := normTurboKey profileIdentifier
  let tempGuard := key == "battlefield6"
  let ops := [outcomes 0, outcomes 1, outcomes 2, outcomes 3,
              outcomes 4, outcomes 5, outcomes 6]
  let tally := turboLoop (0, 0) ops
  { executedOps := ops,
    storageWrites := [("gb.turbo", encodeTurboData ⟨saveTime, key⟩)],
    telemetry := some (activateTelemetryBoost key tempGuard r1 r2),
    result := .ok { steps := tally.1, errors := tally.2,
                    tempGuard := tempGuard, executionTime := execTime,
                    profile := displayNameFor key profileIdentifier } }

/-- `runTurbo` (`turbo.ts` lines 166-248).  `outcomes i` is the boolean
the `i`-th `step` call resolves (its internal try/catch turns a failing
optimizer call into `false`; the loop's own catch never fires for these),
`execTime` the observed wall-clock run time, `saveTime` the `Date.now()`
at the persistence write, and `r1`, `r2` the random draws of
`activateTelemetryBoost`.  The `if (!preset) throw` guard fires only when
`presets[profileKey]` is falsy — i.e. neither an own table entry nor an
inherited `Object.prototype` property. -/
def runTurbo (profileIdentifier : String) (outcomes : Fin 7 → Bool)
    (execTime saveTime : Nat) (r1 r2 : ℚ) : TurboRun :=
  if (presetsGet (normTurboKey profileIdentifier)).truthy then
    turboBody profileIdentifier outcomes execTime saveTime r1 r2
  else
    { executedOps := [], storageWrites := [], telemetry := none,
      result := .error ("Perfil '" ++ profileIdentifier ++ "' não encontrado") }

/-- C3 (amended): when the normalized identifier is an own key of the
presets table, `runTurbo` runs the fixed list of 7 operations and returns
steps = 7, errors counting exactly the failed operations (hence between 0
and steps), and tempGuard true exactly for `battlefield6`; a normalized
key that is neither an own key nor an inherited `Object.prototype`
property name throws without executing any operation; but a normalized
key naming an inherited `Object.prototype` property (e.g. `constructor`,
`__proto__`) bypasses the `!preset` guard and the 7 operations run. -/
theorem runTurbo_steps_errors (id : String) (outcomes : Fin 7 → Bool)
    (et st : Nat) (r1 r2 : ℚ) :
    (∀ p, presets (normTurboKey id) = some p →
      ∃ res, (runTurbo id outcomes et st r1 r2).result = .ok res ∧
        res.steps = 7 ∧
        res.errors = countFalse (runTurbo id outcomes et st r1 r2).executedOps ∧
        res.errors ≤ res.steps ∧
        (res.tempGuard = true ↔ normTurboKey id = "battlefield6")) ∧
    (presets (normTurboKey id) = none →
      objectProtoProps.contains (normTurboKey id) = false →
      (runTurbo id outcomes et st r1 r2).executedOps = [] ∧
      ∃ msg, (runTurbo id outcomes et st r1 r2).result = .error msg) ∧
    (presets (normTurboKey id) = none →
      objectProtoProps.contains (normTurboKey id) = true →
      ∃ res, (runTurbo id outcomes et st r1 r2).result = .ok res ∧
        res.steps = 7 ∧
        (runTurbo id outcomes et st r1 r2).executedOps.length = 7) := by
  refine ⟨?_, ?_, ?_⟩
  · intro p hp
    have hg : presetsGet (normTurboKey id) = .own p := by
      unfold presetsGet
      rw [hp]
    have hrun : runTurbo id outcomes et st r1 r2 = turboBody id outcomes et st r1 r2 := by
      unfold runTurbo
      rw [hg]
      rfl
    rw [hrun]
    simp only [turboBody]
    rw [turboLoop_spec]
    refine ⟨_, rfl, ?_, ?_, ?_, ?_⟩
    · simp
    · simp
    · simpa using countFalse_le_length
        [outcomes 0, outcomes 1, outcomes 2, outcomes 3, outcomes 4, outcomes 5, outcomes 6]
    · exact beq_iff_eq
  · intro hp hcont
    have hg : presetsGet (normTurboKey id) = .missing := by
      unfold presetsGet
      rw [hp, hcont]
      rfl
    have hrun : runTurbo id outcomes et st r1 r2
        = { executedOps := [], storageWrites := [], telemetry := none,
            result := .error ("Perfil '" ++ id ++ "' não encontrado") } := by
      unfold runTurbo
      rw [hg]
      rfl
    rw [hrun]
    exact ⟨rfl, _, rfl⟩
  · intro hp hcont
    have hg : presetsGet (normTurboKey id) = .proto := by
      unfold presetsGet
      rw [hp, hcont]
      rfl
    have hrun : runTurbo id outcomes et st r1 r2 = turboBody id outcomes et st r1 r2 := by
      unfold runTurbo
      rw [hg]
      rfl
    rw [hrun]
    simp only [turboBody]
    rw [turboLoop_spec]
    exact ⟨_, rfl, by simp, by simp⟩

/-- C3 counterexample: `"constructor"` normalizes to itself and is not a
key of the presets table, yet `presets['constructor']` finds the truthy
inherited `Object.prototype` constructor, so `runTurbo` does not throw —
it executes all 7 operations and returns a result. -/
theorem runTurbo_proto_counterexample :
    presets (normTurboKey "constructor") = none ∧
    (runTurbo "constructor" (fun _ => true) 5 9 0 0).executedOps ≠ [] ∧
    ∃ res, (runTurbo "constructor" (fun _ => true) 5 9 0 0).result = .ok res := by
  refine ⟨by decide, by decide, ⟨_, rfl⟩⟩

/-- Witness for C3 at the concrete identifier `"esports"` with every
operation succeeding. -/
theorem runTurbo_steps_errors_witness :
    ∃ res, (runTurbo "esports" (fun _ => true) 5 9 0 0).result = .ok res ∧
      res.steps = 7 ∧
      res.errors = countFalse (runTurbo "esports" (fun _ => true) 5 9 0 0).executedOps ∧
      res.errors ≤ res.steps ∧
      (res.tempGuard = true ↔ normTurboKey "esports" = "battlefield6") :=
  (runTurbo_steps_errors "esports" (fun _ => true) 5 9 0 0).1
    ⟨"realtime", "aggressive", "kill-aggressive", 90, "performance", "max", none⟩
    (by rfl)

/-! ## Local storage (`gb.turbo`) -/

/-- Apply a sequence of `localStorage.setItem` writes to a storage state. -/
def applyWrites (storage : String → Option String) :
    List (String × String) → (String → Option String)
  | [] => storage
  | w :: ws => applyWrites (fun k => if k == w.1 then some w.2 else storage k) ws

/-- `getLastTurboData` (`turbo.ts` lines 253-260): read `gb.turbo`, parse
it, `null` when absent or unparsable. -/
def getLastTurboData (storage : String → Option String) : Option TurboData :=
  match storage "gb.turbo" with
  | none => none
  | some s => parseTurboData s

theorem presets_key_mem (k : String) (p : PresetConfig)
    (h : presets k = some p) : k ∈ presetKeys := by
  unfold presets at h
  split at h <;> first | decide | exact Option.noConfusion h

theorem presets_key_noQuote (k : String) (p : PresetConfig)
    (h : presets k = some p) : ∀ c ∈ k.toList, (c == '"') = false := by
  have hm := presets_key_mem k p h
  fin_cases hm <;> decide

/-- C4: a completed `runTurbo` writes exactly one storage entry, under key
`gb.turbo`, holding the JSON record whose `lastTurboAt` is the completion
timestamp and whose `lastTurboProfile` is the normalized internal preset
key; `getLastTurboData` parses that value back, and returns `null` when
the key is absent. -/
theorem runTurbo_persists (id : String) (outcomes : Fin 7 → Bool) (et st : Nat)
    (r1 r2 : ℚ) (storage : String → Option String) (p : PresetConfig)
    (hp : presets (normTurboKey id) = some p) :
    (runTurbo id outcomes et st r1 r2).storageWrites
      = [("gb.turbo", encodeTurboData ⟨st, normTurboKey id⟩)] ∧
    getLastTurboData
        (applyWrites storage (runTurbo id outcomes et st r1 r2).storageWrites)
      = some ⟨st, normTurboKey id⟩ ∧
    (∀ st2 : String → Option String, st2 "gb.turbo" = none →
      getLastTurboData st2 = none) := by
  have hg : presetsGet (normTurboKey id) = .own p := by
    unfold presetsGet
    rw [hp]
  have hw : (runTurbo id outcomes et st r1 r2).storageWrites
      = [("gb.turbo", encodeTurboData ⟨st, normTurboKey id⟩)] := by
    simp [runTurbo, hg, turboBody, PresetLookup.truthy]
  refine ⟨hw, ?_, ?_⟩
  · rw [hw]
    have hread : applyWrites storage
        [("gb.turbo", encodeTurboData ⟨st, normTurboKey id⟩)] "gb.turbo"
        = some (encodeTurboData ⟨st, normTurboKey id⟩) := by
      simp [applyWrites]
    unfold getLastTurboData
    rw [hread]
    exact parse_encode st (normTurboKey id) (presets_key_noQuote _ p hp)
  · intro st2 h2
    unfold getLastTurboData
    rw [h2]

/-- Witness for C4 at the identifier `"aaa"` over empty storage. -/
theorem runTurbo_persists_witness :
    (runTurbo "aaa" (fun _ => true) 5 9 0 0).storageWrites
      = [("gb.turbo", encodeTurboData ⟨9, normTurboKey "aaa"⟩)] ∧
    getLastTurboData
        (applyWrites (fun _ => none) (runTurbo "aaa" (fun _ => true) 5 9 0 0).storageWrites)
      = some ⟨9, normTurboKey "aaa"⟩ ∧
    (∀ st2 : String → Option String, st2 "gb.turbo" = none →
      getLastTurboData st2 = none) :=
  runTurbo_persists "aaa" (fun _ => true) 5 9 0 0 (fun _ => none)
    ⟨"normal", "light", "minimal", 65, "balanced", "quality", none⟩ (by rfl)

/-- C5: the fabricated telemetry boost depends only on the profile key and
the tempGuard flag, never on the step/error tallies: fpsBoost is the fixed
per-profile value, ramReduction lies in `[8, 12]`, tempReduction lies in
`[2, 4]` under tempGuard and is 0 otherwise, duration is 60000, and the
telemetry a `runTurbo` call activates is independent of the operation
outcomes and timings. -/
theorem telemetry_boost_spec (k : String) (g : Bool) (r1 r2 : ℚ)
    (h1 : 0 ≤ r1) (h2 : r1 < 1) (h3 : 0 ≤ r2) (h4 : r2 < 1) :
    (activateTelemetryBoost k g r1 r2).fpsBoost = calculateFpsBoost k ∧
    (calculateFpsBoost "esports" = 5 ∧ calculateFpsBoost "battleroyale" = 5 ∧
     calculateFpsBoost "warzone" = 5 ∧ calculateFpsBoost "aaa" = 3 ∧
     calculateFpsBoost "battlefield6" = 6 ∧ calculateFpsBoost "streamgame" = 4 ∧
     calculateFpsBoost "arcriders" = 4 ∧ calculateFpsBoost "silent" = 0) ∧
    (k ∉ presetKeys → calculateFpsBoost k = 4) ∧
    (8 ≤ (activateTelemetryBoost k g r1 r2).ramReduction ∧
      (activateTelemetryBoost k g r1 r2).ramReduction ≤ 12) ∧
    (g = true → 2 ≤ (activateTelemetryBoost k g r1 r2).tempReduction ∧
      (activateTelemetryBoost k g r1 r2).tempReduction ≤ 4) ∧
    (g = false → (activateTelemetryBoost k g r1 r2).tempReduction = 0) ∧
    (activateTelemetryBoost k g r1 r2).duration = 60000 ∧
    (∀ (id : String) (o o2 : Fin 7 → Bool) (et et2 st st2 : Nat),
      (runTurbo id o et st r1 r2).telemetry = (runTurbo id o2 et2 st2 r1 r2).telemetry) := by
  have hram : 0 ≤ ⌊r1 * 5⌋ ∧ ⌊r1 * 5⌋ ≤ 4 := by
    constructor
    · exact Int.floor_nonneg.mpr (by positivity)
    · have : ⌊r1 * 5⌋ < 5 := Int.floor_lt.mpr (by push_cast; linarith)
      omega
  have htmp : 0 ≤ ⌊r2 * 3⌋ ∧ ⌊r2 * 3⌋ ≤ 2 := by
    constructor
    · exact Int.floor_nonneg.mpr (by positivity)
    · have : ⌊r2 * 3⌋ < 3 := Int.floor_lt.mpr (by push_cast; linarith)
      omega
  refine ⟨rfl, by decide, ?_, ?_, ?_, ?_, rfl, ?_⟩
  · intro hk
    unfold calculateFpsBoost
    split_ifs with c1 c2 c3 c4 c5 c6 c7
    · exfalso
      apply hk
      rcases Bool.or_eq_true_iff.mp c1 with hc | hc <;>
        rw [beq_iff_eq] at hc <;> subst hc <;> decide
    · exact absurd (by rw [beq_iff_eq] at c2; subst c2; decide) hk
    · exact absurd (by rw [beq_iff_eq] at c3; subst c3; decide) hk
    · exact absurd (by rw [beq_iff_eq] at c4; subst c4; decide) hk
    · exact absurd (by rw [beq_iff_eq] at c5; subst c5; decide) hk
    · exact absurd (by rw [beq_iff_eq] at c6; subst c6; decide) hk
    · exact absurd (by rw [beq_iff_eq] at c7; subst c7; decide) hk
    · rfl
  · have : (activateTelemetryBoost k g r1 r2).ramReduction = ⌊r1 * 5⌋ + 8 := rfl
    rw [this]
    omega
  · intro hg
    subst hg
    have : (activateTelemetryBoost k true r1 r2).tempReduction = ⌊r2 * 3⌋ + 2 := rfl
    rw [this]
    omega
  · intro hg
    subst hg
    rfl
  · intro id o o2 et et2 st st2
    by_cases hg : (presetsGet (normTurboKey id)).truthy = true
    · simp [runTurbo, hg, turboBody]
    · simp [runTurbo, hg]

/-- Witness for C5 at profile `"battlefield6"` with tempGuard on and draws
`r1 = 0`, `r2 = 1/2`. -/
theorem telemetry_boost_spec_witness :
    (activateTelemetryBoost "battlefield6" true 0 (1/2)).fpsBoost
        = calculateFpsBoost "battlefield6" ∧
    (calculateFpsBoost "esports" = 5 ∧ calculateFpsBoost "battleroyale" = 5 ∧
     calculateFpsBoost "warzone" = 5 ∧ calculateFpsBoost "aaa" = 3 ∧
     calculateFpsBoost "battlefield6" = 6 ∧ calculateFpsBoost "streamgame" = 4 ∧
     calculateFpsBoost "arcriders" = 4 ∧ calculateFpsBoost "silent" = 0) ∧
    ("battlefield6" ∉ presetKeys → calculateFpsBoost "battlefield6" = 4) ∧
    (8 ≤ (activateTelemetryBoost "battlefield6" true 0 (1/2)).ramReduction ∧
      (activateTelemetryBoost "battlefield6" true 0 (1/2)).ramReduction ≤ 12) ∧
    (true = true → 2 ≤ (activateTelemetryBoost "battlefield6" true 0 (1/2)).tempReduction ∧
      (activateTelemetryBoost "battlefield6" true 0 (1/2)).tempReduction ≤ 4) ∧
    (true = false → (activateTelemetryBoost "battlefield6" true 0 (1/2)).tempReduction = 0) ∧
    (activateTelemetryBoost "battlefield6" true 0 (1/2)).duration = 60000 ∧
    (∀ (id : String) (o o2 : Fin 7 → Bool) (et et2 st st2 : Nat),
      (runTurbo id o et st 0 (1/2)).telemetry = (runTurbo id o2 et2 st2 0 (1/2)).telemetry) :=
  telemetry_boost_spec "battlefield6" true 0 (1/2)
    (by norm_num) (by norm_num) (by norm_num) (by norm_num)

/-! ## Simulated failure (legacy vs. current turbo engine)

The legacy engine (`temp-project-restore/src/engine/turbo.ts`) gives each
simulated operation a 10% failure chance via
`shouldFail = () => Math.random() < 0.1`.  The current engine
(`src/engine/turbo.ts`) replaced this: the preview branch of its `step`
helper awaits a 300 ms timer, logs, and returns `true` — it draws no
random number and can only fail when a real optimizer call throws. -/

/-- `shouldFail` of the legacy engine (`temp-project-restore` line 54),
with the `Math.random()` draw `r` made explicit. -/
def shouldFail (r : ℚ) : Bool := decide (r < 0.1)

/-- A legacy simulated operation (e.g. `turboOperations.freeRam`,
`temp-project-restore` lines 89-100): it reports failure (`false`) exactly
when `shouldFail` fires. -/
def legacySimOp (r : ℚ) : Bool := if shouldFail r then false else true

/-- The preview branch of `step` in the current engine
(`src/engine/turbo.ts` lines 94-103): it always resolves `true`.  The
parameter is the hypothetical random draw of the spec claim; the code
never consults one. -/
def stepSimulated (_r : ℚ) : Bool := true

/-- C6 counterexample: at the concrete draw `r = 1/20 < 0.1`, a simulated
step of the current engine's Turbo sequence still succeeds, so the claim
"a simulated step reports failure exactly when `r < 0.1`" fails on the
current engine. -/
theorem stepSimulated_counterexample :
    ((1 : ℚ)/20 < 0.1) ∧ stepSimulated ((1 : ℚ)/20) = true := by
  constructor
  · norm_num
  · rfl

/-- C6 (amended): in the legacy turbo engine a simulated operation fails
exactly when the draw `r < 0.1`; in the current engine the simulated
preview branch of `step` never fails. -/
theorem turbo_sim_failure_rate (r : ℚ) (h0 : 0 ≤ r) (h1 : r < 1) :
    (shouldFail r = true ↔ r < 0.1) ∧
    (legacySimOp r = false ↔ r < 0.1) ∧
    stepSimulated r = true := by
  refine ⟨?_, ?_, rfl⟩
  · simp [shouldFail]
  · by_cases hf : r < 0.1 <;> simp [legacySimOp, shouldFail, hf]

/-- Witness for the amended C6 at the draw `r = 1/20`. -/
theorem turbo_sim_failure_rate_witness :
    (shouldFail ((1 : ℚ)/20) = true ↔ (1 : ℚ)/20 < 0.1) ∧
    (legacySimOp ((1 : ℚ)/20) = false ↔ (1 : ℚ)/20 < 0.1) ∧
    stepSimulated ((1 : ℚ)/20) = true :=
  turbo_sim_failure_rate ((1 : ℚ)/20) (by norm_num) (by norm_num)

/-! ## Host file reading (`public/electron/main.js`, `readSystemFile`) -/

/-- Behaviour of the file system at a path: `fs.stat` throws, or reports a
size after which `fs.readFile` yields content or throws. -/
inductive FsOutcome where
  | statErr (msg : String)
  | statOk (size : Nat) (readRes : Except String String)

/-- Result shape of `readSystemFile`: `{success, content?, error?}`. -/
structure ReadResult where
  success : Bool
  content : Option String
  error : Option String
deriving DecidableEq, Repr

/-- The `dangerousPaths` denylist of `readSystemFile` (lines 154-160). -/
def dangerousPaths : List String :=
  ["system32", "windows", "program files", "users", "documents and settings"]

/-- `readSystemFile` (`main.js` lines 145-179).  `normalizePath` stands for
`path.normalize`; `fs` is the file-system oracle.  A thrown error is
caught and returned as `{success: false, error: message}`. -/
def readSystemFile (normalizePath : String → String) (fs : String → FsOutcome)
    (filePath : String) : ReadResult :=
  if dangerousPaths.any (fun d => strIncludes (strToLower (normalizePath filePath)) d) then
    { success := false, content := none, error := some "Acesso negado: caminho não permitido" }
  else
    match fs (normalizePath filePath) with
    | .statErr m => { success := false, content := none, error := some m }
    | .statOk size readRes =>
        if size > 1024 * 1024 then
          { success := false, content := none, error := some "Arquivo muito grande (max 1MB)" }
        else
          match readRes with
          | .error m => { success := false, content := none, error := some m }
          | .ok content => { success := true, content := some content, error := none }

/-- C7: a path whose normalized form contains a dangerous segment is
rejected with `{success: false, error: message}` without consulting the
file system; a file over 1 MB is likewise rejected; and in every case
`content` is present exactly when `success` is true. -/
theorem readSystemFile_spec (normalizePath : String → String)
    (fs : String → FsOutcome) (p : String) :
    (dangerousPaths.any (fun d => strIncludes (strToLower (normalizePath p)) d) = true →
      (readSystemFile normalizePath fs p).success = false ∧
      (readSystemFile normalizePath fs p).error.isSome = true ∧
      ∀ fs2, readSystemFile normalizePath fs p = readSystemFile normalizePath fs2 p) ∧
    (∀ size readRes, fs (normalizePath p) = .statOk size readRes → size > 1024 * 1024 →
      (readSystemFile normalizePath fs p).success = false ∧
      (readSystemFile normalizePath fs p).error.isSome = true) ∧
    ((readSystemFile normalizePath fs p).content.isSome
      = (readSystemFile normalizePath fs p).success) := by
  refine ⟨?_, ?_, ?_⟩
  · intro hd
    refine ⟨?_, ?_, ?_⟩ <;> simp [readSystemFile, hd]
  · intro size readRes hfs hsize
    have hgt : (size > 1024 * 1024) = True := by simp [hsize]
    constructor <;>
      · unfold readSystemFile
        split
        · rfl
        · rw [hfs]
          simp [hgt]
  · unfold readSystemFile
    split
    · rfl
    · cases hfs : fs (normalizePath p) with
      | statErr m => rfl
      | statOk size readRes =>
          by_cases hs : size > 1024 * 1024
          · simp [hs]
          · cases readRes <;> simp [hs]

/-- Witness for C7 at the path `"C:/Windows/system.ini"` (normalization
modelled as the identity on this already-normal path). -/
theorem readSystemFile_spec_witness :
    (readSystemFile id (fun _ => .statErr "ENOENT") "C:/Windows/system.ini").success = false ∧
    (readSystemFile id (fun _ => .statErr "ENOENT") "C:/Windows/system.ini").error.isSome = true ∧
    ∀ fs2, readSystemFile id (fun _ => .statErr "ENOENT") "C:/Windows/system.ini"
      = readSystemFile id fs2 "C:/Windows/system.ini" :=
  (readSystemFile_spec id (fun _ => .statErr "ENOENT") "C:/Windows/system.ini").1 (by decide)
